import Mathlib

/-!
# PrintFlow frontend — shallow embedding and verification

This file embeds the state-manipulating logic of the two pages of the
PrintFlow frontend (the customer upload page and the shop-owner dashboard)
as executable Lean definitions, and proves properties of that logic.

The embedding models:
* browser `localStorage` as an association list (`Store`);
* toast notifications as a list of `Notice` values emitted by a handler;
* outgoing HTTP requests as a list of `Request` values emitted by a handler;
* each event/submit handler as a pure function from the pre-state plus the
  (externally supplied) server response to the post-state and emitted
  requests/notices.
-/

namespace PrintFlow

/-! ## Local durable storage (browser `localStorage`) -/

/-- `localStorage`, modelled as an association list of key/value pairs. -/
def Store : Type := List (String × String)

/-- `localStorage.getItem(k)`: `none` models JavaScript `null`. -/
def Store.getItem (st : Store) (k : String) : Option String :=
  (List.find? (fun p => p.1 == k) st).map (fun p => p.2)

/-- `localStorage.removeItem(k)`. -/
def Store.removeItem (st : Store) (k : String) : Store :=
  List.filter (fun p => p.1 != k) st

/-- `localStorage.setItem(k, v)` (overwrites any previous binding of `k`). -/
def Store.setItem (st : Store) (k : String) (v : String) : Store :=
  (k, v) :: Store.removeItem st k

/-! ## Notifications and outgoing requests -/

/-- A toast notification (`react-hot-toast`): `toast.success`, `toast.error`,
`toast.info` calls made by a handler, in order. -/
inductive Notice : Type where
  | success (msg : String)
  | error (msg : String)
  | info (msg : String)
deriving DecidableEq, Repr

/-- The multipart form data built by `handleSubmit`: the appended
`files`, `print_type`, `print_side` and `copies` fields (files are
identified by name; `copies` is appended as `copies.toString()`). -/
structure FormPayload : Type where
  files : List String
  print_type : String
  print_side : String
  copies : String
deriving DecidableEq, Repr

/-- An outgoing HTTP request issued by a handler. -/
inductive Request : Type where
  /-- `POST {API_ENDPOINTS.UPLOAD_FILE}/{shopId}` with multipart body. -/
  | uploadPost (shopId : String) (payload : FormPayload)
  /-- `GET {API_ENDPOINTS.PRINT_JOB_STATUS}/{token}`. -/
  | statusGet (token : String)
  /-- `PUT {API_ENDPOINTS.PRINT_JOBS}/{jobId}` with body `{ status }`. -/
  | jobPut (jobId : String) (status : String)
  /-- `PUT {API_ENDPOINTS.SHOP_DETAILS}/{shopId}/toggle-uploads` with body
  `{ isAcceptingUploads }`. -/
  | togglePut (shopId : String) (isAcceptingUploads : Bool)
deriving DecidableEq, Repr

/-! ## Externally configured constants

`STATIC_VARIABLES` lives in `../config`, outside the embedded sources. -/

/-- Modelled from the spec: `STATIC_VARIABLES.STATUS_TYPES.PENDING` from
`../config` is not part of the embedded sources.  The spec's §3 gives the
status enumeration `{pending, completed, expired, deleted}`, and the
`useState<'pending' | 'completed' | 'expired' | 'deleted'>` ascription in
the source forces this constant to be the literal `"pending"`. -/
def STATUS_PENDING : String := "pending"

/-- Modelled from the spec: `STATIC_VARIABLES.STATUS_TYPES.COMPLETED`,
pinned to `"completed"` the same way as `STATUS_PENDING`. -/
def STATUS_COMPLETED : String := "completed"

/-- Modelled from the spec: `STATIC_VARIABLES.STATUS_TYPES.EXPIRED`,
pinned to `"expired"` the same way as `STATUS_PENDING`. -/
def STATUS_EXPIRED : String := "expired"

/-! ## Upload page (`UploadPage`) state -/

/-- The submission-relevant `useState` cells of `UploadPage`.  File handles
are represented by their names (the only file attribute the submission
logic reads besides passing the handle through). -/
structure UploadState : Type where
  files : List String
  printType : String
  printSide : String
  copies : Int
  isUploading : Bool
  uploadComplete : Bool
  token : String
  jobStatus : String
deriving DecidableEq, Repr

/-! ## The copies input

`onChange={(e) => setCopies(parseInt(e.target.value) || STATIC_VARIABLES.MIN_COPIES)}`
plus the `-` / `+` stepper buttons. -/

/-- Numeric value of the leading decimal-digit run of `cs`; `none` when `cs`
does not start with a digit (JavaScript `parseInt` returns `NaN` then). -/
def parseDigits (cs : List Char) : Option Nat :=
  let ds := cs.takeWhile Char.isDigit
  if ds.isEmpty then none
  else some (ds.foldl (fun acc c => acc * 10 + (c.toNat - 48)) 0)

/-- JavaScript `parseInt(s)` (radix 10) on the strings a number input can
hold: leading whitespace is skipped, an optional sign is read, then the
leading digit run is converted; `none` models `NaN`. -/
def parseIntJS (s : String) : Option Int :=
  match s.data.dropWhile Char.isWhitespace with
  | '-' :: rest => (parseDigits rest).map (fun n => -(n : Int))
  | '+' :: rest => (parseDigits rest).map (fun n => (n : Int))
  | cs => (parseDigits cs).map (fun n => (n : Int))

/-- The copies input `onChange` handler:
`setCopies(parseInt(e.target.value) || MIN_COPIES)`.  `NaN` and `0` are
falsy in JavaScript, so exactly they fall back to the configured minimum. -/
def copiesOnChange (minCopies : Int) (typed : String) : Int :=
  match parseIntJS typed with
  | none => minCopies
  | some n => if n = 0 then minCopies else n

/-- The `-` stepper button:
`copies > MIN_COPIES && setCopies(copies - 1)`. -/
def copiesDecrement (minCopies copies : Int) : Int :=
  if minCopies < copies then copies - 1 else copies

/-- The `+` stepper button:
`copies < MAX_COPIES && setCopies(copies + 1)`. -/
def copiesIncrement (maxCopies copies : Int) : Int :=
  if copies < maxCopies then copies + 1 else copies

/-! ## Submission (`handleSubmit`) -/

/-- The server's reaction to the upload `fetch`: a 2xx response carrying
`{ token_number }`, a non-2xx response with its status code and body text,
or a rejected fetch (network failure) with the thrown error's message. -/
inductive UploadResponse : Type where
  | ok (tokenNumber : String)
  | httpErr (status : Nat) (body : String)
  | netErr (msg : String)
deriving DecidableEq, Repr

/-- Result of running an upload-page handler: the post-state, the
post-`localStorage`, and the requests and notices emitted, in order. -/
structure EffectResult : Type where
  state : UploadState
  store : Store
  requests : List Request
  notices : List Notice

/-- The multipart body `handleSubmit` builds from the current state. -/
def mkPayload (st : UploadState) : FormPayload :=
  { files := st.files
    print_type := st.printType
    print_side := st.printSide
    copies := toString st.copies }

/-- `UploadPage.handleSubmit`, as a function of the pre-state, the
pre-`localStorage` and the server's response to the single `fetch` it
issues.  An empty file list is rejected before any network call; otherwise
exactly one `POST` is issued, and the `ok` / error branches mirror the
`try`/`catch`/`finally` of the source (`finally` clears `isUploading`). -/
def handleSubmit (shopId : String) (st : UploadState) (store : Store)
    (resp : UploadResponse) : EffectResult :=
  if st.files = [] then
    { state := st, store := store, requests := []
      notices := [Notice.error "Please select at least one file to upload"] }
  else
    let req := Request.uploadPost shopId (mkPayload st)
    match resp with
    | UploadResponse.ok tok =>
        { state := { st with token := tok, uploadComplete := true,
                             jobStatus := STATUS_PENDING, isUploading := false }
          store := Store.setItem store ("uploadToken_" ++ shopId) tok
          requests := [req]
          notices := [Notice.success
            (toString st.files.length ++ " " ++
              (if st.files.length = 1 then "file" else "files") ++
              " uploaded successfully!")] }
    | UploadResponse.httpErr status body =>
        { state := { st with isUploading := false }
          store := store
          requests := [req]
          notices := [Notice.error
            ("Upload failed: " ++ toString status ++ " " ++ body)] }
    | UploadResponse.netErr msg =>
        { state := { st with isUploading := false }
          store := store
          requests := [req]
          notices := [Notice.error msg] }

/-! ## Session recovery (`checkPreviousUpload`) -/

/-- The JSON body of a successful `GET {PRINT_JOB_STATUS}/{token}` response,
restricted to the fields `checkPreviousUpload` reads. -/
structure JobStatusPayload : Type where
  status : String
  fileName : String
  print_type : String
  print_side : String
  copies : Int
deriving DecidableEq, Repr

/-- The server's reaction to the status `fetch` in `checkPreviousUpload`:
a 2xx response with a job body, or any failure (non-2xx response or
network error) — both land in the same `catch`. -/
inductive StatusResponse : Type where
  | ok (job : JobStatusPayload)
  | err
deriving DecidableEq, Repr

/-- `UploadPage.checkPreviousUpload` (the mount effect): reads the stored
token for the shop; when one is present (JS truthiness: non-null and
non-empty, and `shopId` itself truthy) issues one status `GET`.  On success
it rehydrates the completed view from the response; on failure it removes
the stored token.  No notice is ever emitted. -/
def checkPreviousUpload (shopId : String) (st : UploadState) (store : Store)
    (resp : StatusResponse) : EffectResult :=
  match Store.getItem store ("uploadToken_" ++ shopId) with
  | none => { state := st, store := store, requests := [], notices := [] }
  | some storedToken =>
    if storedToken = "" ∨ shopId = "" then
      { state := st, store := store, requests := [], notices := [] }
    else
      match resp with
      | StatusResponse.ok job =>
          { state := { st with token := storedToken, jobStatus := job.status,
                               uploadComplete := true, files := [job.fileName],
                               printType := job.print_type,
                               printSide := job.print_side,
                               copies := job.copies }
            store := store
            requests := [Request.statusGet storedToken]
            notices := [] }
      | StatusResponse.err =>
          { state := st
            store := Store.removeItem store ("uploadToken_" ++ shopId)
            requests := [Request.statusGet storedToken]
            notices := [] }

/-! ## Upload page push handlers -/

/-- The payload of a `jobStatusUpdate` push event as consumed by the
upload page. -/
structure JobUpdateEvent : Type where
  id : String
  token : String
  status : String
deriving DecidableEq, Repr

/-- The payload of a `batchStatusUpdate` push event as consumed by the
upload page. -/
structure BatchUpdateEvent : Type where
  token : String
  status : String
  count : Nat
deriving DecidableEq, Repr

/-- The upload page's `socket.on('jobStatusUpdate', ...)` handler: applied
only when the event's token equals the token currently displayed. -/
def uploadOnJobStatusUpdate (st : UploadState) (ev : JobUpdateEvent) :
    UploadState × List Notice :=
  if ev.token = st.token then
    ({ st with jobStatus := ev.status },
      if ev.status = "completed" then
        [Notice.success ("Job #" ++ st.token ++ " is completed!")]
      else if ev.status = "deleted" then
        [Notice.error ("Job #" ++ st.token ++ " was declined/deleted.")]
      else [])
  else (st, [])

/-- The upload page's `socket.on('batchStatusUpdate', ...)` handler. -/
def uploadOnBatchStatusUpdate (st : UploadState) (ev : BatchUpdateEvent) :
    UploadState × List Notice :=
  if ev.token = st.token then
    ({ st with jobStatus := ev.status },
      if ev.status = "completed" then
        [Notice.success ("All jobs for #" ++ st.token ++ " completed!")]
      else if ev.status = "deleted" then
        [Notice.error ("All jobs for #" ++ st.token ++ " were declined/deleted.")]
      else [])
  else (st, [])

/-! ## Dashboard (`ShopDashboard`) data model -/

/-- A file descriptor inside a dashboard `PrintJob`. -/
structure PrintJobFile : Type where
  fileName : String
  filePath : String
  fileSize : Nat
deriving DecidableEq, Repr

/-- The dashboard's internal `PrintJob` shape.  `uploadTime` (a JS `Date`)
is modelled as a millisecond timestamp. -/
structure PrintJob : Type where
  id : String
  token : String
  printType : String
  printSide : String
  copies : Int
  status : String
  uploadTime : Nat
  files : List PrintJobFile
deriving DecidableEq, Repr

/-- The payload of a dashboard `jobStatusUpdate` push event. -/
structure DashJobUpdate : Type where
  id : String
  status : String
deriving DecidableEq, Repr

/-- The payload of a dashboard `batchStatusUpdate` push event. -/
structure DashBatchUpdate : Type where
  token : String
  status : String
deriving DecidableEq, Repr

/-- The dashboard's `socket.on('jobStatusUpdate', ...)` state update:
`prevJobs.map(job => job.id === update.id ? { ...job, status } : job)`. -/
def dashJobStatusUpdate (jobs : List PrintJob) (ev : DashJobUpdate) :
    List PrintJob :=
  jobs.map (fun job => if job.id = ev.id then { job with status := ev.status } else job)

/-- The dashboard's `socket.on('batchStatusUpdate', ...)` state update:
`prevJobs.map(job => job.token === update.token ? { ...job, status } : job)`. -/
def dashBatchStatusUpdate (jobs : List PrintJob) (ev : DashBatchUpdate) :
    List PrintJob :=
  jobs.map (fun job => if job.token = ev.token then { job with status := ev.status } else job)

/-- The dashboard's `socket.on('newBatchPrintJob', ...)` state update, after
field normalization has produced `formattedJob`:
`prevJobs.some(job => job.id === formattedJob.id) ? prevJobs : [formattedJob, ...prevJobs]`. -/
def dashNewBatchPrintJob (jobs : List PrintJob) (formattedJob : PrintJob) :
    List PrintJob :=
  if jobs.any (fun job => job.id == formattedJob.id) then jobs
  else formattedJob :: jobs

/-! ## Dashboard owner actions -/

/-- Outcome of an authenticated REST call whose body the handler does not
read: a 2xx response or any failure (non-2xx or network error). -/
inductive RestResult : Type where
  | ok
  | err
deriving DecidableEq, Repr

/-- Result of a dashboard job action: the roster afterwards and the
requests/notices emitted. -/
structure DashEffect : Type where
  jobs : List PrintJob
  requests : List Request
  notices : List Notice

/-- `ShopDashboard.handleMarkAsCompleted`: issues one
`PUT {PRINT_JOBS}/{jobId}` with `status: 'completed'` and toasts; it never
touches `printJobs` (no `setPrintJobs` call in its body). -/
def handleMarkAsCompleted (jobs : List PrintJob) (jobId : String)
    (resp : RestResult) : DashEffect :=
  { jobs := jobs
    requests := [Request.jobPut jobId "completed"]
    notices :=
      match resp with
      | RestResult.ok => [Notice.success "Job marked as completed"]
      | RestResult.err => [Notice.error "Failed to mark job as completed"] }

/-- Result of `handleToggleUploads`: the `isAcceptingUploads` flag
afterwards and the requests/notices emitted. -/
structure ToggleEffect : Type where
  isAcceptingUploads : Bool
  requests : List Request
  notices : List Notice

/-- `ShopDashboard.handleToggleUploads`: issues one
`PUT {SHOP_DETAILS}/{shopId}/toggle-uploads` carrying the inverted flag;
on a 2xx response flips the local flag and toasts success, on any failure
leaves the flag alone and toasts an error. -/
def handleToggleUploads (shopId : String) (isAcceptingUploads : Bool)
    (resp : RestResult) : ToggleEffect :=
  { isAcceptingUploads :=
      match resp with
      | RestResult.ok => !isAcceptingUploads
      | RestResult.err => isAcceptingUploads
    requests := [Request.togglePut shopId (!isAcceptingUploads)]
    notices :=
      match resp with
      | RestResult.ok =>
          [Notice.success ("Upload form " ++
            (if !isAcceptingUploads then "enabled" else "disabled"))]
      | RestResult.err => [Notice.error "Failed to update shop status"] }

/-! ## Dashboard filtering -/

/-- The literal tab list rendered by the dashboard:
`['pending', 'completed', 'expired']`; `setActiveTab` is only ever called
with these, and the initial tab is `STATUS_PENDING`. -/
def tabValues : List String := ["pending", "completed", "expired"]

/-- JavaScript `haystack.includes(needle)` on strings. -/
def jsIncludes (haystack needle : String) : Bool :=
  decide (List.IsInfix needle.data haystack.data)

/-- `filteredJobs = printJobs.filter(job => job.status === activeTab)`. -/
def filteredJobs (printJobs : List PrintJob) (activeTab : String) :
    List PrintJob :=
  printJobs.filter (fun job => job.status == activeTab)

/-- `filteredAndSearchedJobs = filteredJobs.filter(job =>
job.token.toLowerCase().includes(searchQuery.toLowerCase()))`. -/
def filteredAndSearchedJobs (printJobs : List PrintJob) (activeTab : String)
    (searchQuery : String) : List PrintJob :=
  (filteredJobs printJobs activeTab).filter
    (fun job => jsIncludes job.token.toLower searchQuery.toLower)

/-! ## Concrete fixtures used by witnesses -/

/-- A concrete upload-page state with one selected file. -/
def wState : UploadState :=
  { files := ["a.pdf"], printType := "bw", printSide := "single", copies := 2,
    isUploading := false, uploadComplete := false, token := "T1",
    jobStatus := "pending" }

/-- A concrete dashboard job. -/
def jobW1 : PrintJob :=
  { id := "1", token := "T7", printType := "bw", printSide := "single",
    copies := 1, status := "pending", uploadTime := 0,
    files := [{ fileName := "a.pdf", filePath := "p/a.pdf", fileSize := 10 }] }

/-- A second dashboard job sharing `jobW1`'s token. -/
def jobW3 : PrintJob :=
  { id := "3", token := "T7", printType := "color", printSide := "double",
    copies := 2, status := "pending", uploadTime := 5, files := [] }

/-- A dashboard job with a fresh identifier and its own token. -/
def jobW4 : PrintJob :=
  { id := "4", token := "T9", printType := "bw", printSide := "single",
    copies := 1, status := "pending", uploadTime := 9, files := [] }

/-- A dashboard job whose status is `deleted`. -/
def jobWdel : PrintJob :=
  { id := "5", token := "T5", printType := "bw", printSide := "single",
    copies := 1, status := "deleted", uploadTime := 2, files := [] }

/-- A concrete upload-page `jobStatusUpdate` event matching `wState.token`. -/
def evW : JobUpdateEvent := { id := "1", token := "T1", status := "completed" }

/-- A concrete upload-page `batchStatusUpdate` event whose token does not
match `wState.token`. -/
def bevW : BatchUpdateEvent := { token := "ZZ", status := "completed", count := 2 }

/-- A concrete dashboard `jobStatusUpdate` event. -/
def dashJobEvW : DashJobUpdate := { id := "1", status := "completed" }

/-- A concrete dashboard `batchStatusUpdate` event for token `T7`. -/
def dashBatchEvW : DashBatchUpdate := { token := "T7", status := "completed" }

/-! ## Helper lemmas -/

/-- Reading back a key just written to `localStorage` yields the written
value. -/
theorem Store.getItem_setItem (st : Store) (k v : String) :
    Store.getItem (Store.setItem st k v) k = some v := by
  unfold Store.getItem Store.setItem
  rw [List.find?_cons_of_pos (p := fun q => q.1 == k) (a := (k, v)) _
    (beq_self_eq_true k)]
  rfl

/-! ## Claims -/

/-- C1, counterexample: the claim that every typed copies value below the
configured minimum is clamped to the minimum before being put into the
submission payload is false.  With minimum `1`, typing `-1` is parsed by
`parseInt("-1") || MIN_COPIES` to the truthy `-1`, is kept as the copies
state, and is appended verbatim as the `copies` field of the multipart
form data — a value strictly below the minimum. -/
theorem copies_clamp_cex :
    copiesOnChange 1 "-1" = -1 ∧
    ¬ (1 ≤ copiesOnChange 1 "-1") ∧
    (handleSubmit "shop1"
        { files := ["a.pdf"], printType := "bw", printSide := "single",
          copies := copiesOnChange 1 "-1", isUploading := false,
          uploadComplete := false, token := "", jobStatus := "pending" }
        [] (UploadResponse.ok "T42")).requests =
      [Request.uploadPost "shop1"
        { files := ["a.pdf"], print_type := "bw", print_side := "single",
          copies := "-1" }] := by
  refine ⟨by decide, by decide, ?_⟩
  rfl

/-- C1, amended: only a copies input that fails to parse as an integer or
parses to exactly `0` is replaced by the configured minimum (`NaN` and `0`
are the falsy cases of `parseInt(v) || MIN_COPIES`), and the stepper
buttons keep copies at or inside the configured bounds; any other typed
value — including a nonzero value below the minimum — is stored unchanged
and included verbatim (via `toString`) as the `copies` field of the single
upload request's payload. -/
theorem copies_clamp_amended (minCopies maxCopies : Int) (typed : String)
    (st : UploadState) (shopId : String) (store : Store) (resp : UploadResponse) :
    (parseIntJS typed = none → copiesOnChange minCopies typed = minCopies) ∧
    (parseIntJS typed = some 0 → copiesOnChange minCopies typed = minCopies) ∧
    (∀ n : Int, parseIntJS typed = some n → n ≠ 0 →
      copiesOnChange minCopies typed = n) ∧
    (minCopies ≤ st.copies → minCopies ≤ copiesDecrement minCopies st.copies) ∧
    (st.copies ≤ maxCopies → copiesIncrement maxCopies st.copies ≤ maxCopies) ∧
    (st.files ≠ [] →
      (handleSubmit shopId st store resp).requests =
        [Request.uploadPost shopId (mkPayload st)] ∧
      (mkPayload st).copies = toString st.copies) := by
  refine ⟨?_, ?_, ?_, ?_, ?_, ?_⟩
  · intro h; simp [copiesOnChange, h]
  · intro h; simp [copiesOnChange, h]
  · intro n h hn; simp [copiesOnChange, h, hn]
  · intro h; unfold copiesDecrement; split <;> omega
  · intro h; unfold copiesIncrement; split <;> omega
  · intro h
    refine ⟨?_, rfl⟩
    cases resp <;> simp [handleSubmit, h]

/-- Witness for `copies_clamp_amended` at concrete inputs. -/
theorem copies_clamp_amended_witness :
    copiesOnChange 1 "0" = 1 ∧
    copiesOnChange 1 "abc" = 1 ∧
    (1 : Int) ≤ copiesDecrement 1 wState.copies := by
  have h := copies_clamp_amended 1 5 "0" wState "s1" [] (UploadResponse.ok "T")
  have h2 := copies_clamp_amended 1 5 "abc" wState "s1" [] (UploadResponse.ok "T")
  exact ⟨h.2.1 (by decide), h2.1 (by decide), h.2.2.2.1 (by decide)⟩

/-- C2: for every submission with a non-empty file list, exactly one upload
`POST` to `{UPLOAD_FILE}/{shopId}` is issued, and on a 2xx response the
returned `token_number` is stored in `localStorage` under
`uploadToken_{shopId}`, the view transitions to upload-complete, the
displayed status becomes pending, and a success notification is shown. -/
theorem handleSubmit_success_spec (shopId : String) (st : UploadState)
    (store : Store) (tok : String) (h : st.files ≠ []) :
    (handleSubmit shopId st store (UploadResponse.ok tok)).requests =
      [Request.uploadPost shopId (mkPayload st)] ∧
    Store.getItem (handleSubmit shopId st store (UploadResponse.ok tok)).store
      ("uploadToken_" ++ shopId) = some tok ∧
    (handleSubmit shopId st store (UploadResponse.ok tok)).state.token = tok ∧
    (handleSubmit shopId st store (UploadResponse.ok tok)).state.uploadComplete = true ∧
    (handleSubmit shopId st store (UploadResponse.ok tok)).state.jobStatus = STATUS_PENDING ∧
    ∃ m, (handleSubmit shopId st store (UploadResponse.ok tok)).notices =
      [Notice.success m] := by
  unfold handleSubmit
  rw [if_neg h]
  exact ⟨rfl, Store.getItem_setItem store ("uploadToken_" ++ shopId) tok,
    rfl, rfl, rfl, ⟨_, rfl⟩⟩

/-- Witness for `handleSubmit_success_spec` at concrete inputs. -/
theorem handleSubmit_success_spec_witness :
    Store.getItem (handleSubmit "s1" wState [] (UploadResponse.ok "T42")).store
      ("uploadToken_" ++ "s1") = some "T42" ∧
    (handleSubmit "s1" wState [] (UploadResponse.ok "T42")).state.uploadComplete = true := by
  have h := handleSubmit_success_spec "s1" wState [] "T42" (by decide)
  exact ⟨h.2.1, h.2.2.2.1⟩

/-- C3: for every failed submission attempt (non-2xx response or network
failure) with a non-empty file list, an error notification is surfaced,
the selected files, print type, print side, copies, token,
upload-complete flag and stored token keep their pre-submit values, and
exactly one request was issued (no automatic retry). -/
theorem handleSubmit_failure_spec (shopId : String) (st : UploadState)
    (store : Store) (resp : UploadResponse) (h : st.files ≠ [])
    (herr : ∀ tok, resp ≠ UploadResponse.ok tok) :
    (handleSubmit shopId st store resp).state.files = st.files ∧
    (handleSubmit shopId st store resp).state.printType = st.printType ∧
    (handleSubmit shopId st store resp).state.printSide = st.printSide ∧
    (handleSubmit shopId st store resp).state.copies = st.copies ∧
    (handleSubmit shopId st store resp).state.token = st.token ∧
    (handleSubmit shopId st store resp).state.uploadComplete = st.uploadComplete ∧
    (handleSubmit shopId st store resp).state.jobStatus = st.jobStatus ∧
    (handleSubmit shopId st store resp).store = store ∧
    (handleSubmit shopId st store resp).requests =
      [Request.uploadPost shopId (mkPayload st)] ∧
    ∃ m, (handleSubmit shopId st store resp).notices = [Notice.error m] := by
  cases resp with
  | ok tok => exact absurd rfl (herr tok)
  | httpErr status body =>
      unfold handleSubmit
      rw [if_neg h]
      exact ⟨rfl, rfl, rfl, rfl, rfl, rfl, rfl, rfl, rfl, ⟨_, rfl⟩⟩
  | netErr msg =>
      unfold handleSubmit
      rw [if_neg h]
      exact ⟨rfl, rfl, rfl, rfl, rfl, rfl, rfl, rfl, rfl, ⟨_, rfl⟩⟩

/-- Witness for `handleSubmit_failure_spec` at concrete inputs. -/
theorem handleSubmit_failure_spec_witness :
    (handleSubmit "s1" wState [] (UploadResponse.httpErr 500 "boom")).state.files =
      wState.files ∧
    (handleSubmit "s1" wState [] (UploadResponse.httpErr 500 "boom")).store = [] := by
  have h := handleSubmit_failure_spec "s1" wState [] (UploadResponse.httpErr 500 "boom")
    (by decide) (fun tok hc => by cases hc)
  exact ⟨h.1, h.2.2.2.2.2.2.2.1⟩

/-- C4: on the upload page, a `jobStatusUpdate` or `batchStatusUpdate`
push event whose token equals the currently displayed token updates the
visible job status to the event's status; an event whose token differs is
ignored and the view state (and notices) are unchanged. -/
theorem upload_push_token_filter (st : UploadState) (ev : JobUpdateEvent)
    (bev : BatchUpdateEvent) :
    (ev.token = st.token →
      (uploadOnJobStatusUpdate st ev).1 = { st with jobStatus := ev.status }) ∧
    (ev.token ≠ st.token → uploadOnJobStatusUpdate st ev = (st, [])) ∧
    (bev.token = st.token →
      (uploadOnBatchStatusUpdate st bev).1 = { st with jobStatus := bev.status }) ∧
    (bev.token ≠ st.token → uploadOnBatchStatusUpdate st bev = (st, [])) := by
  refine ⟨fun h => ?_, fun h => ?_, fun h => ?_, fun h => ?_⟩ <;>
    simp [uploadOnJobStatusUpdate, uploadOnBatchStatusUpdate, h]

/-- Witness for `upload_push_token_filter` at concrete inputs. -/
theorem upload_push_token_filter_witness :
    (uploadOnJobStatusUpdate wState evW).1 =
      { wState with jobStatus := "completed" } ∧
    uploadOnBatchStatusUpdate wState bevW = (wState, []) := by
  have h := upload_push_token_filter wState evW bevW
  exact ⟨h.1 rfl, h.2.2.2 (by decide)⟩

/-- C5: on the dashboard, a `batchStatusUpdate` push event sets the status
of every roster job whose token equals the event's token to the event's
status and leaves every other job (and the roster's length) unchanged; in
particular two jobs sharing the token both transition on one event. -/
theorem dash_batch_update_spec (jobs : List PrintJob) (ev : DashBatchUpdate)
    (d : PrintJob) :
    (dashBatchStatusUpdate jobs ev).length = jobs.length ∧
    ∀ i, i < jobs.length →
      (dashBatchStatusUpdate jobs ev).getD i d =
        (if (jobs.getD i d).token = ev.token
         then { jobs.getD i d with status := ev.status }
         else jobs.getD i d) := by
  constructor
  · simp [dashBatchStatusUpdate]
  · intro i hi
    induction jobs generalizing i with
    | nil => simp at hi
    | cons j rest ih =>
      cases i with
      | zero => simp [dashBatchStatusUpdate]
      | succ n =>
        simp only [dashBatchStatusUpdate, List.map_cons, List.getD_cons_succ]
        exact ih n (by simpa using hi)

/-- Witness for `dash_batch_update_spec`: two jobs sharing token `T7` both
become `completed` on a single event. -/
theorem dash_batch_update_spec_witness :
    (dashBatchStatusUpdate [jobW1, jobW3] dashBatchEvW).length = 2 ∧
    ((dashBatchStatusUpdate [jobW1, jobW3] dashBatchEvW).getD 0 jobW1).status =
      "completed" ∧
    ((dashBatchStatusUpdate [jobW1, jobW3] dashBatchEvW).getD 1 jobW1).status =
      "completed" := by
  have h := dash_batch_update_spec [jobW1, jobW3] dashBatchEvW jobW1
  have h0 := h.2 0 (by decide)
  have h1 := h.2 1 (by decide)
  refine ⟨h.1, ?_, ?_⟩
  · rw [h0]; decide
  · rw [h1]; decide

/-- C6: on page load with a stored (truthy) token for the shop, exactly one
status `GET {PRINT_JOB_STATUS}/{token}` is issued and no upload request is
issued; on success the displayed status, print mode, sidedness, copies and
filename list are set from the server response and the flow is marked
already completed; on failure the stored token is removed from
`localStorage`, the state is unchanged, and in neither case is any
notification surfaced. -/
theorem checkPreviousUpload_spec (shopId : String) (st : UploadState)
    (store : Store) (resp : StatusResponse) (tok : String)
    (h : Store.getItem store ("uploadToken_" ++ shopId) = some tok)
    (ht : tok ≠ "") (hs : shopId ≠ "") :
    (checkPreviousUpload shopId st store resp).requests =
      [Request.statusGet tok] ∧
    (∀ sid payload,
      Request.uploadPost sid payload ∉ (checkPreviousUpload shopId st store resp).requests) ∧
    (∀ job, resp = StatusResponse.ok job →
      (checkPreviousUpload shopId st store resp).state =
        { st with token := tok, jobStatus := job.status, uploadComplete := true,
                  files := [job.fileName], printType := job.print_type,
                  printSide := job.print_side, copies := job.copies } ∧
      (checkPreviousUpload shopId st store resp).store = store) ∧
    (resp = StatusResponse.err →
      (checkPreviousUpload shopId st store resp).store =
        Store.removeItem store ("uploadToken_" ++ shopId) ∧
      (checkPreviousUpload shopId st store resp).state = st) ∧
    (checkPreviousUpload shopId st store resp).notices = [] := by
  have e : checkPreviousUpload shopId st store resp =
      (match resp with
        | StatusResponse.ok job =>
            { state := { st with token := tok, jobStatus := job.status,
                                 uploadComplete := true, files := [job.fileName],
                                 printType := job.print_type,
                                 printSide := job.print_side,
                                 copies := job.copies }
              store := store
              requests := [Request.statusGet tok]
              notices := [] }
        | StatusResponse.err =>
            { state := st
              store := Store.removeItem store ("uploadToken_" ++ shopId)
              requests := [Request.statusGet tok]
              notices := [] } : EffectResult) := by
    unfold checkPreviousUpload
    rw [h]
    simp [ht, hs]
  cases resp with
  | ok job =>
      rw [e]
      refine ⟨rfl, ?_, ?_, ?_, rfl⟩
      · simp
      · intro j hj
        injection hj with hjj
        subst hjj
        exact ⟨rfl, rfl⟩
      · intro hc
        exact StatusResponse.noConfusion hc
  | err =>
      rw [e]
      refine ⟨rfl, ?_, ?_, ?_, rfl⟩
      · simp
      · intro j hj
        exact StatusResponse.noConfusion hj
      · intro _
        exact ⟨rfl, rfl⟩

/-- Witness for `checkPreviousUpload_spec`: a stored token with a failing
status fetch issues the fetch and self-heals by removing the token. -/
theorem checkPreviousUpload_spec_witness :
    (checkPreviousUpload "s1" wState [("uploadToken_s1", "T9")]
        StatusResponse.err).requests = [Request.statusGet "T9"] ∧
    (checkPreviousUpload "s1" wState [("uploadToken_s1", "T9")]
        StatusResponse.err).store =
      Store.removeItem [("uploadToken_s1", "T9")] ("uploadToken_" ++ "s1") := by
  have h := checkPreviousUpload_spec "s1" wState [("uploadToken_s1", "T9")]
    StatusResponse.err "T9" (by decide) (by decide) (by decide)
  exact ⟨h.1, (h.2.2.2.1 rfl).1⟩

/-- C7: each invocation of the upload-acceptance toggle issues one
`PUT {SHOP_DETAILS}/{shopId}/toggle-uploads`; the local flag is inverted
if and only if that call succeeds, and on failure the flag keeps its prior
value and an error notification is shown. -/
theorem toggle_uploads_spec (shopId : String) (isAcceptingUploads : Bool) :
    (∀ resp, (handleToggleUploads shopId isAcceptingUploads resp).isAcceptingUploads =
        !isAcceptingUploads ↔ resp = RestResult.ok) ∧
    (handleToggleUploads shopId isAcceptingUploads RestResult.err).isAcceptingUploads =
      isAcceptingUploads ∧
    (handleToggleUploads shopId isAcceptingUploads RestResult.err).notices =
      [Notice.error "Failed to update shop status"] ∧
    ∀ resp, (handleToggleUploads shopId isAcceptingUploads resp).requests =
      [Request.togglePut shopId (!isAcceptingUploads)] := by
  refine ⟨fun resp => ?_, rfl, rfl, fun resp => rfl⟩
  cases resp <;> cases isAcceptingUploads <;>
    simp [handleToggleUploads]

/-- Witness for `toggle_uploads_spec` at concrete inputs. -/
theorem toggle_uploads_spec_witness :
    (handleToggleUploads "s1" false RestResult.ok).isAcceptingUploads = true ∧
    (handleToggleUploads "s1" false RestResult.err).isAcceptingUploads = false := by
  have h := toggle_uploads_spec "s1" false
  exact ⟨(h.1 RestResult.ok).2 rfl, h.2.1⟩

/-- C8: the mark-completed action performs no local roster update: for
every invocation, whether the `PUT` succeeds or fails, the in-memory
print-job roster is returned exactly as it was, and the single request
issued is `PUT {PRINT_JOBS}/{jobId}` with status `completed`. -/
theorem mark_completed_frame_spec (jobs : List PrintJob) (jobId : String)
    (resp : RestResult) :
    (handleMarkAsCompleted jobs jobId resp).jobs = jobs ∧
    (handleMarkAsCompleted jobs jobId resp).requests =
      [Request.jobPut jobId "completed"] := by
  exact ⟨rfl, rfl⟩

/-- C9: dashboard roster invariant under push events: status events
(`jobStatusUpdate`, `batchStatusUpdate`) preserve the roster's identifier
sequence (no job is ever removed), a `newBatchPrintJob` event whose
identifier is already present leaves the roster unchanged, a genuinely new
job is inserted at the front, and identifier uniqueness is preserved. -/
theorem roster_invariant_spec (jobs : List PrintJob) (ev : DashJobUpdate)
    (bev : DashBatchUpdate) (j : PrintJob) :
    (dashJobStatusUpdate jobs ev).map PrintJob.id = jobs.map PrintJob.id ∧
    (dashBatchStatusUpdate jobs bev).map PrintJob.id = jobs.map PrintJob.id ∧
    (jobs.any (fun jb => jb.id == j.id) = true →
      dashNewBatchPrintJob jobs j = jobs) ∧
    (jobs.any (fun jb => jb.id == j.id) = false →
      dashNewBatchPrintJob jobs j = j :: jobs) ∧
    ((jobs.map PrintJob.id).Nodup →
      ((dashNewBatchPrintJob jobs j).map PrintJob.id).Nodup) := by
  refine ⟨?_, ?_, ?_, ?_, ?_⟩
  · rw [dashJobStatusUpdate, List.map_map]
    refine List.map_congr_left (fun jb _ => ?_)
    by_cases hc : jb.id = ev.id <;> simp [hc]
  · rw [dashBatchStatusUpdate, List.map_map]
    refine List.map_congr_left (fun jb _ => ?_)
    by_cases hc : jb.token = bev.token <;> simp [hc]
  · intro h; simp [dashNewBatchPrintJob, h]
  · intro h; simp [dashNewBatchPrintJob, h]
  · intro hnd
    by_cases hc : jobs.any (fun jb => jb.id == j.id) = true
    · simp [dashNewBatchPrintJob, hc, hnd]
    · have hfalse : jobs.any (fun jb => jb.id == j.id) = false :=
        Bool.eq_false_iff.2 hc
      rw [dashNewBatchPrintJob]
      rw [if_neg (by simp [hfalse])]
      rw [List.map_cons]
      refine List.nodup_cons.2 ⟨?_, hnd⟩
      intro hmem
      obtain ⟨jb, hjb, hid⟩ := List.mem_map.1 hmem
      have := List.any_eq_false.1 hfalse jb hjb
      simp [beq_iff_eq] at this
      exact this hid

/-- Witness for `roster_invariant_spec` at concrete inputs: a duplicate new
job is dropped, a fresh one goes to the front and keeps identifiers
unique. -/
theorem roster_invariant_spec_witness :
    (dashJobStatusUpdate [jobW1, jobW3] dashJobEvW).map PrintJob.id =
      [jobW1, jobW3].map PrintJob.id ∧
    dashNewBatchPrintJob [jobW1, jobW3] jobW1 = [jobW1, jobW3] ∧
    dashNewBatchPrintJob [jobW1, jobW3] jobW4 = [jobW4, jobW1, jobW3] ∧
    ((dashNewBatchPrintJob [jobW1, jobW3] jobW4).map PrintJob.id).Nodup := by
  have h1 := roster_invariant_spec [jobW1, jobW3] dashJobEvW dashBatchEvW jobW1
  have h4 := roster_invariant_spec [jobW1, jobW3] dashJobEvW dashBatchEvW jobW4
  exact ⟨h1.1, h1.2.2.1 (by decide), h4.2.2.2.1 (by decide),
    h4.2.2.2.2 (by decide)⟩

/-- C10: for every active tab drawn from the rendered tab list
`['pending', 'completed', 'expired']` (which also contains the initial tab
`STATUS_PENDING`), the status-filtered list contains exactly the roster
jobs whose status equals the active tab, and a job whose status is
`deleted` never appears in the displayed (filtered and searched) list for
any search query — it stays in the roster but disappears from view. -/
theorem deleted_never_displayed_spec (jobs : List PrintJob)
    (activeTab searchQuery : String) (job : PrintJob)
    (htab : activeTab ∈ tabValues) :
    STATUS_PENDING ∈ tabValues ∧
    (job ∈ filteredJobs jobs activeTab ↔ (job ∈ jobs ∧ job.status = activeTab)) ∧
    (job.status = "deleted" →
      job ∉ filteredAndSearchedJobs jobs activeTab searchQuery) := by
  refine ⟨by simp [STATUS_PENDING, tabValues], ?_, ?_⟩
  · simp [filteredJobs, List.mem_filter, beq_iff_eq]
  · intro hdel hmem
    have h1 : job ∈ filteredJobs jobs activeTab :=
      (List.mem_filter.1 hmem).1
    have h2 : job.status = activeTab := by
      have := (List.mem_filter.1 h1).2
      simpa [beq_iff_eq] using this
    have h3 : activeTab = "deleted" := h2.symm.trans hdel
    rw [h3] at htab
    simp [tabValues] at htab

/-- Witness for `deleted_never_displayed_spec` at concrete inputs: a
soft-deleted job is not displayed in the pending tab with an empty search
query. -/
theorem deleted_never_displayed_spec_witness :
    jobWdel ∉ filteredAndSearchedJobs [jobW1, jobWdel] "pending" "" := by
  have h := deleted_never_displayed_spec [jobW1, jobWdel] "pending" "" jobWdel
    (by simp [tabValues])
  exact h.2.2 rfl

end PrintFlow
